import Mathlib

/-!
Shallow embedding of the section-snapping vertical scroll controller in
src/assets/js/vertical-nav.js, together with theorems settling the frozen
claims about it.

Modelling conventions:
* DOM nodes are finite rose trees carrying their nodeType.
* JS numbers that take part in comparisons and easing arithmetic are
  modelled as rationals; slide indices and layout metrics are integers.
* The browser event loop is modelled as explicit events (navigate, frame,
  wheel-cancel) acting on an explicit state record.
* The polyfill animation of smoothScrollPolyfill is modelled by a step
  function over an animation record holding the captured closure state
  (start offset, gap, target, interrupt flag, listener registration).
-/

namespace VerticalNav

/-- A DOM node: its nodeType (1 element, 3 text, 8 comment, ...) and its
childNodes in document order. -/
inductive DomNode : Type where
  | mk : Nat → List DomNode → DomNode

/-- nodeType accessor. -/
def DomNode.nodeType : DomNode → Nat
  | .mk t _ => t

/-- childNodes accessor. -/
def DomNode.childNodes : DomNode → List DomNode
  | .mk _ cs => cs

mutual
/-- Embedding of window.getCount from vertical-nav.js lines 15-27: counts
the childNodes whose nodeType is not 3 (text), recursing into each counted
child when getChildrensChildren is true. -/
def getCount : DomNode → Bool → Nat
  | .mk _ children, getChildrensChildren => getCountLoop children getChildrensChildren

/-- The for-loop of getCount over the childNodes list: each child with
nodeType other than 3 contributes 1, plus its own recursive count when the
flag is set; text nodes contribute nothing. -/
def getCountLoop : List DomNode → Bool → Nat
  | [], _ => 0
  | c :: rest, g =>
      (if c.nodeType ≠ 3 then (if g then getCount c true else 0) + 1 else 0)
      + getCountLoop rest g
end

/-- The quantity the spec describes: the number of direct children that are
element nodes (nodeType 1). Stated from the spec wording, for comparison
with getCount. -/
def specElementChildCount (parent : DomNode) : Nat :=
  (parent.childNodes.filter fun c => c.nodeType = 1).length

/-- Embedding of easingOutQuint (lines 38-39): the JS reassigns t to
t / d - 1 and then multiplies five copies of it, giving
c * ((t / d - 1)^5 + 1) + b. The first argument x is unused, as in the
source. -/
def easingOutQuint (_x t b c d : ℚ) : ℚ :=
  let t1 := t / d - 1
  c * (t1 * t1 * t1 * t1 * t1 + 1) + b

/-- SCROLL_DURATION (line 63): fixed animation duration in milliseconds. -/
def SCROLL_DURATION : ℚ := 800

/-- The layout-relevant fields of an element on the ancestor chain walked
by the wheel listener. -/
structure Elem : Type where
  overflowY : String
  scrollTop : Int
  clientHeight : Int
  scrollHeight : Int
deriving DecidableEq

/-- The body of the wheel listener loop (lines 212-230) for one ancestor:
true when the walk returns early, delegating the event to this element.
The element must have computed overflow-y auto or scroll, and room in the
requested direction: down needs scrollTop + clientHeight < scrollHeight - 1
(the 1 is the tolerance), up needs scrollTop > 0. -/
def delegates (scrollDirection : Int) (el : Elem) : Bool :=
  (el.overflowY == "auto" || el.overflowY == "scroll")
  && ((decide (0 < scrollDirection)
        && decide (el.scrollTop + el.clientHeight < el.scrollHeight - 1))
      || (decide (scrollDirection < 0) && decide (0 < el.scrollTop)))

/-- The while-loop of the wheel listener walking the ancestor chain from
the event target up to (excluding) the scroller: true when some ancestor
takes the event, making the handler return without navigating. -/
def findDelegate (scrollDirection : Int) : List Elem → Bool
  | [] => false
  | el :: rest => delegates scrollDirection el || findDelegate scrollDirection rest

/-- The controller state owned by the DOMContentLoaded closure
(lines 145-147): slideCount, currentSlideIndex, isScrolling, plus the
aria-pressed attribute of each indicator button in document order. -/
structure NavState : Type where
  slideCount : Nat
  currentSlideIndex : Int
  isScrolling : Bool
  ariaPressed : List Bool
deriving DecidableEq

/-- Embedding of setAriaPressed (lines 153-157): every indicator at
position i gets aria-pressed set to the truth of i = activeIndex. -/
def setAriaPressed (pressed : List Bool) (activeIndex : Int) : List Bool :=
  (List.range pressed.length).map fun i : ℕ => decide ((i : Int) = activeIndex)

/-- Embedding of navigateToSlide (lines 172-188) at the controller-state
level: the guard rejects the call when an animation is running or the
index is out of [0, slideCount); otherwise the lock is taken, the index
stored and the indicators refreshed. The returned Bool records whether an
animation was started (the smoothScroll call reached). -/
def navigateToSlide (s : NavState) (index : Int) : NavState × Bool :=
  if s.isScrolling || decide (index < 0) || decide ((s.slideCount : Int) ≤ index) then
    (s, false)
  else
    ({ s with
        isScrolling := true
        currentSlideIndex := index
        ariaPressed := setAriaPressed s.ariaPressed index }, true)

/-- The externally visible effects of one wheel-listener run: whether
preventDefault was called and, when navigateToSlide was called, its
argument. -/
structure WheelEffect : Type where
  preventDefault : Bool
  navigateCalledWith : Option Int
deriving DecidableEq

/-- Embedding of the wheel listener (lines 202-238). A locked controller
suppresses the event and returns. Otherwise the direction is 1 when
deltaY > 0 and -1 otherwise, the ancestor chain is walked, and if no
ancestor delegates, the default is suppressed and
navigateToSlide(currentSlideIndex + direction) is called. -/
def handleWheel (s : NavState) (deltaY : ℚ) (ancestors : List Elem) :
    NavState × WheelEffect :=
  if s.isScrolling then
    (s, ⟨true, none⟩)
  else
    let scrollDirection : Int := if deltaY > 0 then 1 else -1
    if findDelegate scrollDirection ancestors then
      (s, ⟨false, none⟩)
    else
      let nextSlideIndex := s.currentSlideIndex + scrollDirection
      ((navigateToSlide s nextSlideIndex).1, ⟨true, some nextSlideIndex⟩)

/-- The closure state of one smoothScrollPolyfill run (lines 72-109):
offset and gap are captured at start, target is the requested position,
interrupt is the cancellation flag, listenersAttached tracks whether the
cancel handlers for wheel and touchstart are still registered. -/
structure AnimState : Type where
  offset : ℚ
  gap : ℚ
  target : ℚ
  interrupt : Bool
  listenersAttached : Bool
deriving DecidableEq

/-- One execution of the polyfill step closure (lines 78-93) at a given
elapsed time, over the current scroll offset of the node. Returns the new
animation state, the node offset after the step, and whether onComplete
was invoked. An interrupted step returns at once; elapsed / duration > 1
snaps to the target, removes the listeners (cleanup) and completes;
otherwise the eased position is written and another frame is scheduled. -/
def polyfillStep (a : AnimState) (node : ℚ) (elapsed : ℚ) :
    AnimState × ℚ × Bool :=
  if a.interrupt then
    (a, node, false)
  else if elapsed / SCROLL_DURATION > 1 then
    ({ a with listenersAttached := false }, a.target, true)
  else
    (a, easingOutQuint 0 elapsed a.offset a.gap SCROLL_DURATION, false)

/-- The cancel closure (lines 95-98) run by a wheel or touchstart event on
the node: sets interrupt and removes the listeners (cleanup). It never
invokes onComplete. -/
def polyfillCancel (a : AnimState) : AnimState :=
  { a with interrupt := true, listenersAttached := false }

/-- Runs a sequence of animation frames at the given elapsed times,
threading the animation state and the node scroll offset. -/
def runFrames : AnimState → ℚ → List ℚ → AnimState × ℚ
  | a, node, [] => (a, node)
  | a, node, e :: es =>
      let r := polyfillStep a node e
      runFrames r.1 r.2.1 es

/-- The target offset of navigateToSlide (line 182),
Math.floor(scroller.scrollHeight * (currentSlideIndex / slideCount)),
idealized over exact rationals. The source computes it in IEEE-754 double
arithmetic; see the discussion at claim C6. -/
def targetScrollTop (scrollHeight : Int) (index : Int) (slideCount : Nat) : Int :=
  ⌊(scrollHeight : ℚ) * ((index : ℚ) / (slideCount : ℚ))⌋

/-- Whole-system state for the polyfill path: the controller state, the
scroller metrics, the current scroll offset, and the in-flight polyfill
animation if any. -/
structure SysState : Type where
  nav : NavState
  scrollHeight : Int
  nodeScroll : ℚ
  anim : Option AnimState
deriving DecidableEq

/-- A full navigateToSlide call on the polyfill path: when the guard
admits the call, smoothScroll starts smoothScrollPolyfill, whose closure
captures the current offset and gap and registers its cancel listeners.
(The synchronous first step writes easingOutQuint at elapsed 0, which
equals the captured offset, so the node offset is unchanged by it.) -/
def sysNavigate (s : SysState) (index : Int) : SysState :=
  let r := navigateToSlide s.nav index
  if r.2 then
    let target : ℚ := (targetScrollTop s.scrollHeight index s.nav.slideCount : ℚ)
    { s with
        nav := r.1
        anim := some
          { offset := s.nodeScroll
            gap := target - s.nodeScroll
            target := target
            interrupt := false
            listenersAttached := true } }
  else
    { s with nav := r.1 }

/-- One animation frame of the in-flight polyfill animation at the given
elapsed time. On completion the onComplete callback passed by
navigateToSlide (lines 184-187) resets isScrolling to false; an
interrupted or absent animation leaves the system unchanged. -/
def sysFrame (s : SysState) (elapsed : ℚ) : SysState :=
  match s.anim with
  | none => s
  | some a =>
      if a.interrupt then s
      else if elapsed / SCROLL_DURATION > 1 then
        { s with
            nodeScroll := a.target
            anim := none
            nav := { s.nav with isScrolling := false } }
      else
        { s with nodeScroll := easingOutQuint 0 elapsed a.offset a.gap SCROLL_DURATION }

/-- A wheel or touchstart event reaching the cancel listeners of the
in-flight polyfill animation: interrupt is set and the listeners removed.
The onComplete callback is not invoked, so isScrolling is untouched. -/
def sysCancel (s : SysState) : SysState :=
  match s.anim with
  | none => s
  | some a =>
      if a.listenersAttached then
        { s with anim := some (polyfillCancel a) }
      else
        s

/-! ## Helper lemmas -/

/-- With the recursion flag false, the getCount loop counts exactly the
children whose nodeType is not 3. -/
lemma getCountLoop_false (cs : List DomNode) :
    getCountLoop cs false = (cs.filter fun c => c.nodeType ≠ 3).length := by
  induction cs with
  | nil => simp [getCountLoop]
  | cons c rest ih =>
      by_cases h : c.nodeType = 3
      · simp [getCountLoop, List.filter_cons, h, ih]
      · simp [getCountLoop, List.filter_cons, h, ih]
        omega

/-- An interrupted polyfill step returns immediately, writing nothing and
not completing. -/
lemma polyfillStep_interrupted (a : AnimState) (node e : ℚ)
    (h : a.interrupt = true) : polyfillStep a node e = (a, node, false) := by
  simp [polyfillStep, h]

/-- An interrupted animation is inert across any sequence of frames. -/
lemma runFrames_interrupted (a : AnimState) (node : ℚ) (es : List ℚ)
    (h : a.interrupt = true) : runFrames a node es = (a, node) := by
  induction es with
  | nil => rfl
  | cons e es ih => simp [runFrames, polyfillStep_interrupted a node e h, ih]

/-- If some member of the ancestor list delegates, the while-loop walk
reports a delegate. -/
lemma findDelegate_true_of_mem {d : Int} {el : Elem} {l : List Elem}
    (hmem : el ∈ l) (hdel : delegates d el = true) :
    findDelegate d l = true := by
  induction l with
  | nil => cases hmem
  | cons x xs ih =>
      rcases List.mem_cons.mp hmem with h | h
      · subst h; simp [findDelegate, hdel]
      · simp [findDelegate, ih h]

/-- If no member of the ancestor list delegates, the while-loop walk
reports no delegate. -/
lemma findDelegate_false_of_forall {d : Int} {l : List Elem}
    (h : ∀ el ∈ l, delegates d el = false) :
    findDelegate d l = false := by
  induction l with
  | nil => rfl
  | cons x xs ih =>
      simp [findDelegate, h x (List.mem_cons_self x xs),
        ih fun el hel => h el (List.mem_cons_of_mem x hel)]

/-- Counting the pressed indicators produced by the setAriaPressed loop:
one when the active index names a position of the list, zero otherwise. -/
lemma rangeMap_count_eq (n : ℕ) (i : Int) :
    ((List.range n).map fun j : ℕ => decide ((j : Int) = i)).count true
      = if 0 ≤ i ∧ i < (n : Int) then 1 else 0 := by
  induction n with
  | zero =>
      rw [if_neg]
      · simp
      · omega
  | succ n ih =>
      rw [List.range_succ, List.map_append, List.count_append, ih,
        List.map_singleton, List.count_singleton]
      simp only [beq_iff_eq, decide_eq_true_eq]
      split_ifs <;> omega

/-- The indicator at the active position is marked pressed. -/
lemma setAriaPressed_getD (pressed : List Bool) (i : Int)
    (h0 : 0 ≤ i) (hi : i.toNat < pressed.length) :
    (setAriaPressed pressed i).getD i.toNat false = true := by
  have hlen : i.toNat < (setAriaPressed pressed i).length := by
    simp [setAriaPressed, hi]
  rw [List.getD_eq_getElem _ _ hlen]
  simp [setAriaPressed]
  omega

/-- Exactly one indicator is marked pressed when the active index is a
position of the list. -/
lemma setAriaPressed_count (pressed : List Bool) (i : Int)
    (h0 : 0 ≤ i) (hi : i.toNat < pressed.length) :
    (setAriaPressed pressed i).count true = 1 := by
  rw [setAriaPressed, rangeMap_count_eq, if_pos ⟨h0, by omega⟩]

/-! ## Claim theorems -/

/-- C2: calling navigateToSlide while the isScrolling lock is held, or
with a negative index, or with an index at or beyond slideCount, is a
no-op: the controller state (currentSlideIndex, isScrolling, every
indicator pressed state) is returned unchanged and no animation is
started. The function is total, so no error is raised. -/
theorem navigateToSlide_noop (s : NavState) (index : Int)
    (h : s.isScrolling = true ∨ index < 0 ∨ (s.slideCount : Int) ≤ index) :
    navigateToSlide s index = (s, false) := by
  rcases h with h | h | h <;> simp [navigateToSlide, h]

/-- Witness for navigateToSlide_noop: a concrete out-of-range call on a
three-slide controller returns the state unchanged. -/
theorem navigateToSlide_noop_witness :
    navigateToSlide ⟨3, 0, false, [true, false, false]⟩ 5
      = (⟨3, 0, false, [true, false, false]⟩, false) :=
  navigateToSlide_noop ⟨3, 0, false, [true, false, false]⟩ 5
    (Or.inr (Or.inr (by decide)))

/-- The scroller used to refute C3: an element with three childNodes, an
element (nodeType 1), a comment (nodeType 8) and a text node (nodeType 3). -/
def scrollerC3 : DomNode := .mk 1 [.mk 1 [], .mk 8 [], .mk 3 []]

/-- C3 counterexample: getCount(scroller, false) counts every non-text
child node, so on a container with one element child, one comment child
and one text child it returns 2, while the number of direct element
children is 1. slideCount therefore differs from the element-child count
the claim states. -/
theorem getCount_ne_elementChildCount :
    getCount scrollerC3 false = 2 ∧
    specElementChildCount scrollerC3 = 1 ∧
    getCount scrollerC3 false ≠ specElementChildCount scrollerC3 := by
  refine ⟨?_, ?_, ?_⟩ <;>
    simp [scrollerC3, getCount, getCountLoop, specElementChildCount,
      DomNode.nodeType, DomNode.childNodes]

/-- C3 amended: slideCount, computed once at initialization as
getCount(scroller, false), equals the number of direct child NODES of the
scroll container whose nodeType is not 3 — text nodes are excluded, but
every other node kind (comment nodes included) is counted, not only
element children. -/
theorem getCount_false_eq_nonText (parent : DomNode) :
    getCount parent false
      = (parent.childNodes.filter fun c => c.nodeType ≠ 3).length := by
  cases parent with
  | mk t cs => simpa [getCount, DomNode.childNodes] using getCountLoop_false cs

/-- C8: once the cancel listener of a polyfill animation runs (a wheel or
touchstart on the animated node), the animation is inert: across any
sequence of later frames the node scroll offset is never written again,
the interrupt flag stays set, and the wheel/touchstart listeners are
detached. Moreover the step function itself never sets interrupt, so this
cancel path is the only way the animation is cancelled — there is no
programmatic or timeout-based cancellation in the model. -/
theorem polyfill_cancel_is_final (a : AnimState) (node e : ℚ) (es : List ℚ) :
    (runFrames (polyfillCancel a) node es).2 = node ∧
    (runFrames (polyfillCancel a) node es).1.interrupt = true ∧
    (polyfillCancel a).listenersAttached = false ∧
    (polyfillStep a node e).1.interrupt = a.interrupt := by
  have hint : (polyfillCancel a).interrupt = true := rfl
  refine ⟨?_, ?_, rfl, ?_⟩
  · rw [runFrames_interrupted _ _ _ hint]
  · rw [runFrames_interrupted _ _ _ hint]; exact hint
  · unfold polyfillStep
    split_ifs <;> rfl

/-- C9: an uninterrupted polyfill frame at elapsed time within the 800 ms
duration writes the quintic ease-out position
gap * ((elapsed / duration - 1)^5 + 1) + offset without completing; the
first frame whose elapsed time exceeds the duration writes exactly the
target, detaches the listeners, and invokes the completion callback. -/
theorem polyfillStep_frames (a : AnimState) (node e : ℚ)
    (hi : a.interrupt = false) :
    (e ≤ SCROLL_DURATION →
      polyfillStep a node e
        = (a, easingOutQuint 0 e a.offset a.gap SCROLL_DURATION, false)) ∧
    (SCROLL_DURATION < e →
      polyfillStep a node e
        = ({ a with listenersAttached := false }, a.target, true)) ∧
    easingOutQuint 0 e a.offset a.gap SCROLL_DURATION
      = a.gap * ((e / SCROLL_DURATION - 1) ^ 5 + 1) + a.offset := by
  have hdpos : (0 : ℚ) < SCROLL_DURATION := by norm_num [SCROLL_DURATION]
  refine ⟨?_, ?_, ?_⟩
  · intro he
    have hle : e / SCROLL_DURATION ≤ 1 := by
      rw [div_le_one hdpos]; exact he
    simp [polyfillStep, hi, not_lt.mpr hle]
  · intro he
    have hgt : 1 < e / SCROLL_DURATION := by
      rw [lt_div_iff₀ hdpos]; simpa using he
    simp [polyfillStep, hi, hgt]
  · unfold easingOutQuint
    ring

/-- Witness for polyfillStep_frames: a concrete frame at 900 ms elapsed on
a running animation from offset 0 with gap 50 snaps to the target 50 and
completes. -/
theorem polyfillStep_frames_witness :
    polyfillStep ⟨0, 50, 50, false, true⟩ 20 900
      = ({ (⟨0, 50, 50, false, true⟩ : AnimState) with listenersAttached := false },
          (⟨0, 50, 50, false, true⟩ : AnimState).target, true) :=
  (polyfillStep_frames ⟨0, 50, 50, false, true⟩ 20 900 rfl).2.1 (by decide)

/-- C7: a navigateToSlide call with a valid index while the lock is free
stores the index in currentSlideIndex, takes the lock, and after the
setAriaPressed update exactly one indicator is pressed — the one at
position index — all others false. The indicator list has one entry per
slide, per the DOM structure contract. -/
theorem navigateToSlide_valid_updates (s : NavState) (i : Int)
    (hlock : s.isScrolling = false) (h0 : 0 ≤ i)
    (hi : i < (s.slideCount : Int))
    (hind : s.ariaPressed.length = s.slideCount) :
    (navigateToSlide s i).1.currentSlideIndex = i ∧
    (navigateToSlide s i).1.isScrolling = true ∧
    (navigateToSlide s i).1.ariaPressed.count true = 1 ∧
    (navigateToSlide s i).1.ariaPressed.getD i.toNat false = true := by
  have hlen : i.toNat < s.ariaPressed.length := by omega
  have hnav : navigateToSlide s i
      = ({ s with
            isScrolling := true
            currentSlideIndex := i
            ariaPressed := setAriaPressed s.ariaPressed i }, true) := by
    simp [navigateToSlide, hlock, decide_eq_false (not_lt.mpr h0),
      decide_eq_false (not_le.mpr hi)]
  rw [hnav]
  exact ⟨rfl, rfl, setAriaPressed_count s.ariaPressed i h0 hlen,
    setAriaPressed_getD s.ariaPressed i h0 hlen⟩

/-- Witness for navigateToSlide_valid_updates: on a three-slide controller
at rest, navigating to index 2 stores it, takes the lock, and presses
exactly the indicator at position 2. -/
theorem navigateToSlide_valid_updates_witness :
    (navigateToSlide ⟨3, 0, false, [true, false, false]⟩ 2).1.currentSlideIndex = 2 ∧
    (navigateToSlide ⟨3, 0, false, [true, false, false]⟩ 2).1.isScrolling = true ∧
    (navigateToSlide ⟨3, 0, false, [true, false, false]⟩ 2).1.ariaPressed.count true = 1 ∧
    (navigateToSlide ⟨3, 0, false, [true, false, false]⟩ 2).1.ariaPressed.getD
      (2 : Int).toNat false = true :=
  navigateToSlide_valid_updates ⟨3, 0, false, [true, false, false]⟩ 2
    rfl (by decide) (by decide) rfl

/-- C4: a wheel event on a free controller whose ancestor walk finds no
delegate suppresses default scrolling and calls
navigateToSlide(currentSlideIndex + direction), where the direction is 1
for positive deltaY and -1 for negative deltaY; the slide index changes by
exactly that step, except at the bounds where the out-of-range request
leaves it unchanged. -/
theorem wheel_no_delegate_navigates (s : NavState) (deltaY : ℚ)
    (ancestors : List Elem) (dir : Int)
    (hdir : dir = if deltaY > 0 then 1 else -1)
    (hlock : s.isScrolling = false)
    (hdel : ∀ el ∈ ancestors, delegates dir el = false) :
    (handleWheel s deltaY ancestors).2.preventDefault = true ∧
    (handleWheel s deltaY ancestors).2.navigateCalledWith
      = some (s.currentSlideIndex + dir) ∧
    (0 ≤ s.currentSlideIndex + dir → s.currentSlideIndex + dir < (s.slideCount : Int) →
      (handleWheel s deltaY ancestors).1.currentSlideIndex
        = s.currentSlideIndex + dir) ∧
    ((s.currentSlideIndex + dir < 0 ∨
        (s.slideCount : Int) ≤ s.currentSlideIndex + dir) →
      (handleWheel s deltaY ancestors).1.currentSlideIndex = s.currentSlideIndex) ∧
    (0 < deltaY → dir = 1) ∧ (deltaY < 0 → dir = -1) := by
  have hfd : findDelegate dir ancestors = false := findDelegate_false_of_forall hdel
  have hw : handleWheel s deltaY ancestors
      = ((navigateToSlide s (s.currentSlideIndex + dir)).1,
          ⟨true, some (s.currentSlideIndex + dir)⟩) := by
    simp [handleWheel, hlock, ← hdir, hfd]
  rw [hw]
  refine ⟨rfl, rfl, ?_, ?_, ?_, ?_⟩
  · intro h1 h2
    simp [navigateToSlide, hlock, decide_eq_false (not_lt.mpr h1),
      decide_eq_false (not_le.mpr h2)]
  · intro h
    rcases h with h | h
    · simp [navigateToSlide, decide_eq_true h]
    · simp [navigateToSlide, decide_eq_true h]
  · intro h
    rw [hdir, if_pos h]
  · intro h
    rw [hdir, if_neg (not_lt.mpr h.le)]

/-- Witness for wheel_no_delegate_navigates: a wheel event with deltaY 3
on a four-slide controller at index 1 with an empty ancestor chain
suppresses the default and moves the index to 2. -/
theorem wheel_no_delegate_navigates_witness :
    (handleWheel ⟨4, 1, false, [false, true, false, false]⟩ 3 []).2.preventDefault
      = true ∧
    (handleWheel ⟨4, 1, false, [false, true, false, false]⟩ 3 []).2.navigateCalledWith
      = some 2 ∧
    (handleWheel ⟨4, 1, false, [false, true, false, false]⟩ 3 []).1.currentSlideIndex
      = 2 := by
  have h := wheel_no_delegate_navigates ⟨4, 1, false, [false, true, false, false]⟩
    3 [] 1 (by decide) rfl (by simp)
  exact ⟨h.1, h.2.1, h.2.2.1 (by decide) (by decide)⟩

/-- C5: a wheel event on a free controller whose target lies inside an
ancestor (below the scroller) with overflow-y auto or scroll and room in
the requested direction is delegated: the handler returns with no
preventDefault, no navigateToSlide call, and the controller state — in
particular currentSlideIndex — unchanged. -/
theorem wheel_delegates_to_scrollable_ancestor (s : NavState) (deltaY : ℚ)
    (ancestors : List Elem)
    (hlock : s.isScrolling = false)
    (hex : ∃ el ∈ ancestors, delegates (if deltaY > 0 then 1 else -1) el = true) :
    handleWheel s deltaY ancestors = (s, ⟨false, none⟩) := by
  obtain ⟨el, hmem, hdel⟩ := hex
  have hfd := findDelegate_true_of_mem hmem hdel
  simp [handleWheel, hlock, hfd]

/-- Witness for wheel_delegates_to_scrollable_ancestor: a downward wheel
event over an overflow-y auto ancestor with scroll room left (scrollTop 0,
clientHeight 100, scrollHeight 300) is delegated untouched. -/
theorem wheel_delegates_witness :
    handleWheel ⟨3, 1, false, [false, true, false]⟩ 5 [⟨"auto", 0, 100, 300⟩]
      = (⟨3, 1, false, [false, true, false]⟩, ⟨false, none⟩) :=
  wheel_delegates_to_scrollable_ancestor ⟨3, 1, false, [false, true, false]⟩ 5
    [⟨"auto", 0, 100, 300⟩] rfl
    ⟨⟨"auto", 0, 100, 300⟩, by simp, by decide⟩

/-- C10: a wheel event whose deltaY is exactly 0 takes the else branch of
the ternary, giving direction -1; on a free controller with no delegating
ancestor the handler suppresses the default and calls
navigateToSlide(currentSlideIndex - 1), which decrements the index when
currentSlideIndex > 0. -/
theorem wheel_zero_delta_navigates_up (s : NavState) (ancestors : List Elem)
    (hlock : s.isScrolling = false)
    (hdel : ∀ el ∈ ancestors, delegates (-1) el = false)
    (hpos : 0 < s.currentSlideIndex)
    (hhi : s.currentSlideIndex < (s.slideCount : Int)) :
    ((if (0 : ℚ) > 0 then (1 : Int) else -1) = -1) ∧
    (handleWheel s 0 ancestors).2.preventDefault = true ∧
    (handleWheel s 0 ancestors).2.navigateCalledWith
      = some (s.currentSlideIndex - 1) ∧
    (handleWheel s 0 ancestors).1.currentSlideIndex = s.currentSlideIndex - 1 := by
  have hdirz : (if (0 : ℚ) > 0 then (1 : Int) else -1) = -1 := if_neg (lt_irrefl 0)
  have hsub : s.currentSlideIndex + -1 = s.currentSlideIndex - 1 :=
    (sub_eq_add_neg s.currentSlideIndex 1).symm
  have h1 : ¬ (s.currentSlideIndex + -1 < 0) := by omega
  have h2 : ¬ ((s.slideCount : Int) ≤ s.currentSlideIndex + -1) := by omega
  have hfd : findDelegate (-1) ancestors = false := findDelegate_false_of_forall hdel
  have hw : handleWheel s 0 ancestors
      = ((navigateToSlide s (s.currentSlideIndex + -1)).1,
          ⟨true, some (s.currentSlideIndex + -1)⟩) := by
    simp [handleWheel, hlock, hdirz, hfd]
  rw [hw]
  refine ⟨hdirz, rfl, by rw [hsub], ?_⟩
  have h3 : ¬ (s.currentSlideIndex < 1) := by omega
  have h4 : ¬ ((s.slideCount : Int) ≤ s.currentSlideIndex - 1) := by omega
  simp [navigateToSlide, hlock, hsub, h3, h4]

/-- Witness for wheel_zero_delta_navigates_up: a zero-delta wheel event on
a three-slide controller at index 2 navigates to index 1. -/
theorem wheel_zero_delta_navigates_up_witness :
    ((if (0 : ℚ) > 0 then (1 : Int) else -1) = -1) ∧
    (handleWheel ⟨3, 2, false, [false, false, true]⟩ 0 []).2.preventDefault = true ∧
    (handleWheel ⟨3, 2, false, [false, false, true]⟩ 0 []).2.navigateCalledWith
      = some 1 ∧
    (handleWheel ⟨3, 2, false, [false, false, true]⟩ 0 []).1.currentSlideIndex = 1 :=
  wheel_zero_delta_navigates_up ⟨3, 2, false, [false, false, true]⟩ []
    rfl (by simp) (by decide) (by decide)

/-- The system state used to refute C1: a two-slide page at rest at index
0, scrollHeight 200, no animation in flight. -/
def sysC1 : SysState :=
  { nav := ⟨2, 0, false, [true, false]⟩
    scrollHeight := 200
    nodeScroll := 0
    anim := none }

/-- C1 counterexample: navigating to slide 1 takes the isScrolling lock
and starts the polyfill animation; a wheel or touch-start on the animated
node then cancels it. The cancellation ends the animation — a later frame
changes nothing — yet isScrolling is still true, because the cancel path
never invokes the completion callback. The claim that the lock resets
whenever the animation ends, including by interruption, is therefore
false on this run. -/
theorem cancelled_polyfill_keeps_lock :
    (sysNavigate sysC1 1).nav.isScrolling = true ∧
    sysFrame (sysCancel (sysNavigate sysC1 1)) 900 = sysCancel (sysNavigate sysC1 1) ∧
    (sysCancel (sysNavigate sysC1 1)).nav.isScrolling = true :=
  ⟨rfl, rfl, rfl⟩

/-- C1 amended: when the polyfill animation genuinely completes — an
uninterrupted frame whose elapsed time exceeds the duration — the
completion callback resets isScrolling to false, re-enabling any
subsequent in-range navigateToSlide call; but a cancellation by new
wheel/touch-start input does not touch isScrolling (it stays true), so
the lock resets on completion only, not on interruption. -/
theorem polyfill_completion_resets_lock (s : SysState) (a : AnimState) (e : ℚ)
    (ha : s.anim = some a) (hi : a.interrupt = false)
    (he : SCROLL_DURATION < e) :
    (sysFrame s e).nav.isScrolling = false ∧
    (∀ j : Int, 0 ≤ j → j < (s.nav.slideCount : Int) →
      (navigateToSlide (sysFrame s e).nav j).2 = true) ∧
    (sysCancel s).nav.isScrolling = s.nav.isScrolling := by
  have hdpos : (0 : ℚ) < SCROLL_DURATION := by norm_num [SCROLL_DURATION]
  have hgt : e / SCROLL_DURATION > 1 := by
    rw [gt_iff_lt, lt_div_iff₀ hdpos]; simpa using he
  have hframe : sysFrame s e
      = { s with
            nodeScroll := a.target
            anim := none
            nav := { s.nav with isScrolling := false } } := by
    simp [sysFrame, ha, hi, hgt]
  refine ⟨by rw [hframe], ?_, ?_⟩
  · intro j h0 hj
    rw [hframe]
    simp [navigateToSlide, decide_eq_false (not_lt.mpr h0),
      decide_eq_false (not_le.mpr hj)]
  · unfold sysCancel
    cases s.anim with
    | none => rfl
    | some a2 =>
        by_cases hl : a2.listenersAttached
        · simp [hl]
        · simp [hl]

/-- A running animation used by the witness below: offset 0, gap 100,
target 100, not interrupted, listeners attached. -/
def animW : AnimState := ⟨0, 100, 100, false, true⟩

/-- A mid-navigation system state used by the witness below: lock held,
polyfill animation animW in flight. -/
def sysW : SysState :=
  { nav := ⟨2, 1, true, [false, true]⟩
    scrollHeight := 200
    nodeScroll := 0
    anim := some animW }

/-- Witness for polyfill_completion_resets_lock: a frame at 900 ms of the
concrete in-flight animation releases the lock, re-enables navigating to
slide 0, and a cancel on the same state would leave the lock exactly as
it was. -/
theorem polyfill_completion_resets_lock_witness :
    (sysFrame sysW 900).nav.isScrolling = false ∧
    (navigateToSlide (sysFrame sysW 900).nav 0).2 = true ∧
    (sysCancel sysW).nav.isScrolling = sysW.nav.isScrolling := by
  have h := polyfill_completion_resets_lock sysW animW 900 rfl rfl (by decide)
  exact ⟨h.1, h.2.1 0 (by decide) (by decide), h.2.2⟩

end VerticalNav
